import Mathlib

/-!
Verification of the authorization-gate module `pkg/k8s/authz.go`.

The Go file combines capability discovery ("is this API group/version/kind
installed?") with access-review evaluation ("is the current credential allowed
to perform this verb on this resource?").  We embed it shallowly: the external
Kubernetes client is a record of oracle functions returning `Except GoError`
values, and every modelled check additionally returns the list of client calls
it made, in order, so that ordering/absence-of-call properties can be stated.
-/

namespace Authz

/-- A Go `error` value as it occurs in this module: either a value produced
locally by `errors.New` / `fmt.Errorf` (identified by its message string), or
an arbitrary error returned by the external client collaborator (transport,
auth-to-the-API-server, serialization), which the module never inspects. -/
inductive GoError where
  | errorNew (msg : String)
  | transport (msg : String)
  deriving DecidableEq, Repr

/-- Embeds `authV1.ResourceAttributes` (the fields this module touches).
Absent fields in a Go struct literal are the zero value `""`. -/
structure ResourceAttributes where
  Namespace : String := ""
  Verb : String := ""
  Group : String := ""
  Version : String := ""
  Resource : String := ""
  Subresource : String := ""
  Name : String := ""
  deriving DecidableEq, Repr

/-- Embeds `authV1.SelfSubjectAccessReviewSpec`. -/
structure SelfSubjectAccessReviewSpec where
  ResourceAttributes : ResourceAttributes
  deriving DecidableEq, Repr

/-- Embeds `authV1.SelfSubjectAccessReview` (the request part; the `Status`
filled in by the server is returned separately by the client oracle). -/
structure SelfSubjectAccessReview where
  Spec : SelfSubjectAccessReviewSpec
  deriving DecidableEq, Repr

/-- Embeds `authV1.SubjectAccessReviewSpec`. -/
structure SubjectAccessReviewSpec where
  User : String
  Groups : List String
  ResourceAttributes : ResourceAttributes
  deriving DecidableEq, Repr

/-- Embeds `authV1.SubjectAccessReview` (request part). -/
structure SubjectAccessReview where
  Spec : SubjectAccessReviewSpec
  deriving DecidableEq, Repr

/-- Embeds `authV1.SubjectAccessReviewStatus` (the fields this module reads:
`Allowed` and `Reason`). -/
structure SubjectAccessReviewStatus where
  Allowed : Bool
  Reason : String := ""
  deriving DecidableEq, Repr

/-- The result object a `Create` call returns: the review with its `Status`
populated by the server (`result.Status` is the only field read). -/
structure AccessReviewResult where
  Status : SubjectAccessReviewStatus
  deriving DecidableEq, Repr

/-- Embeds `metav1.APIResource` (the only field read is `Kind`). -/
structure APIResource where
  Name : String := ""
  Kind : String
  deriving DecidableEq, Repr

/-- Embeds `metav1.APIResourceList`: the discovery response for one
group/version, carrying its own `GroupVersion` echo string. -/
structure APIResourceList where
  GroupVersion : String
  APIResources : List APIResource
  deriving DecidableEq, Repr

/-- Embeds `discovery.EndpointSlice`; this module only counts items, so the
payload is irrelevant and kept as a name. -/
structure EndpointSlice where
  Name : String := ""
  deriving DecidableEq, Repr

/-- Embeds `discovery.EndpointSliceList` (the only field read is `Items`). -/
structure EndpointSliceList where
  Items : List EndpointSlice
  deriving DecidableEq, Repr

/-- Embeds `metav1.ListOptions`; the module always passes the zero value. -/
structure ListOptions where
  LabelSelector : String := ""
  deriving DecidableEq, Repr

/-- Embeds `schema.GroupKind` from `k8s.io/apimachinery`. -/
structure GroupKind where
  Group : String
  Kind : String
  deriving DecidableEq, Repr

/-- Embeds `schema.GroupKind.String()` from `k8s.io/apimachinery`:
`Kind` when `Group` is empty, otherwise `Kind + "." + Group`. -/
def GroupKind.render (gk : GroupKind) : String :=
  if gk.Group.length = 0 then gk.Kind else gk.Kind ++ "." ++ gk.Group

/-- The external control-plane client (`kubernetes.Interface`) restricted to
the four operations this module invokes.  Each is an oracle: a pure function
from the request to the reply (`Except GoError`); the embedding of each check
records which oracles were consulted, in order. -/
structure KubernetesInterface where
  createSelfSubjectAccessReview :
    SelfSubjectAccessReview → Except GoError AccessReviewResult
  createSubjectAccessReview :
    SubjectAccessReview → Except GoError AccessReviewResult
  serverResourcesForGroupVersion : String → Except GoError APIResourceList
  listEndpointSlices : String → ListOptions → Except GoError EndpointSliceList

/-- One recorded call to the external client, with the full request payload. -/
inductive K8sCall where
  | createSelfSubjectAccessReview (ssar : SelfSubjectAccessReview)
  | createSubjectAccessReview (sar : SubjectAccessReview)
  | serverResourcesForGroupVersion (gv : String)
  | listEndpointSlices (ns : String) (opts : ListOptions)
  deriving DecidableEq, Repr

/-- True for the two access-review submission calls (authorization queries). -/
def K8sCall.isAccessReview : K8sCall → Bool
  | .createSelfSubjectAccessReview _ => true
  | .createSubjectAccessReview _ => true
  | _ => false

/-- True for the discovery call. -/
def K8sCall.isDiscovery : K8sCall → Bool
  | .serverResourcesForGroupVersion _ => true
  | _ => false

/-- Modelled from the spec: the repository constant `ServiceProfileAPIVersion`
(declared outside the provided source file) — the ServiceProfile CRD's
group/version string, a specific group plus a specific version. -/
def ServiceProfileAPIVersion : String := "linkerd.io" ++ "/" ++ "v1alpha2"

/-- Modelled from the spec: the repository constant `ServiceProfileKind`
(declared outside the provided source file) — the service-profile CRD kind. -/
def ServiceProfileKind : String := "ServiceProfile"

/-- Modelled from the spec: the repository constant `LinkAPIGroup` (declared
outside the provided source file) — the Link CRD's own API group. -/
def LinkAPIGroup : String := "multicluster.linkerd.io"

/-- Modelled from the spec: the repository constant `LinkAPIVersion` (declared
outside the provided source file) — the Link CRD's own (non-empty) version. -/
def LinkAPIVersion : String := "v1alpha1"

/-- Modelled from the spec: the repository constant `LinkAPIGroupVersion`
(declared outside the provided source file) — the Link CRD group/version. -/
def LinkAPIGroupVersion : String := LinkAPIGroup ++ "/" ++ LinkAPIVersion

/-- Modelled from the spec: the repository constant `LinkKind` (declared
outside the provided source file) — the Link CRD kind. -/
def LinkKind : String := "Link"

/-- Embeds `discovery.SchemeGroupVersion.String()` from
`k8s.io/api/discovery/v1beta1`. -/
def discoverySchemeGroupVersion : String := "discovery.k8s.io" ++ "/" ++ "v1beta1"

/-- Embeds `evaluateAccessReviewStatus` (authz.go lines 76-89): success when
allowed; otherwise an error whose message renders the `schema.GroupKind`
built from `group` and `resource`, appending `": " + reason` exactly when the
server-supplied reason is non-empty. -/
def evaluateAccessReviewStatus (group resource : String)
    (status : SubjectAccessReviewStatus) : Except GoError Unit :=
  if status.Allowed then
    .ok ()
  else
    let gk : GroupKind := { Group := group, Kind := resource }
    if status.Reason.length > 0 then
      .error (.errorNew ("not authorized to access " ++ gk.render ++ ": " ++ status.Reason))
    else
      .error (.errorNew ("not authorized to access " ++ gk.render))

/-- The `ssar` literal built in `ResourceAuthz` (authz.go lines 20-31):
`Subresource` is absent from the Go struct literal, hence the zero value. -/
def selfSubjectAccessReview (ns verb group version resource name : String) :
    SelfSubjectAccessReview :=
  { Spec := { ResourceAttributes :=
      { Namespace := ns, Verb := verb, Group := group, Version := version,
        Resource := resource, Name := name } } }

/-- Embeds `ResourceAuthz` (authz.go lines 16-42): build the self-subject
access review, submit it, propagate a transport error unchanged, otherwise
evaluate the returned status.  The second component is the call trace. -/
def ResourceAuthz (k8sClient : KubernetesInterface)
    (ns verb group version resource name : String) :
    Except GoError Unit × List K8sCall :=
  let ssar := selfSubjectAccessReview ns verb group version resource name
  match k8sClient.createSelfSubjectAccessReview ssar with
  | .error err => (.error err, [.createSelfSubjectAccessReview ssar])
  | .ok result =>
      (evaluateAccessReviewStatus group resource result.Status,
       [.createSelfSubjectAccessReview ssar])

/-- The `sar` literal built in `ResourceAuthzForUser` (authz.go lines 49-63);
this is the only builder that accepts and copies a `Subresource`. -/
def subjectAccessReview
    (ns verb group version resource subresource name user : String)
    (userGroups : List String) : SubjectAccessReview :=
  { Spec :=
      { User := user
        Groups := userGroups
        ResourceAttributes :=
          { Namespace := ns, Verb := verb, Group := group, Version := version,
            Resource := resource, Subresource := subresource, Name := name } } }

/-- Embeds `ResourceAuthzForUser` (authz.go lines 46-74). -/
def ResourceAuthzForUser (client : KubernetesInterface)
    (ns verb group version resource subresource name user : String)
    (userGroups : List String) : Except GoError Unit × List K8sCall :=
  let sar := subjectAccessReview ns verb group version resource subresource
    name user userGroups
  match client.createSubjectAccessReview sar with
  | .error err => (.error err, [.createSubjectAccessReview sar])
  | .ok result =>
      (evaluateAccessReviewStatus group resource result.Status,
       [.createSubjectAccessReview sar])

/-- The discovery-match pattern each checker repeats inline
(`if res.GroupVersion == gv { for _, apiRes := range res.APIResources {
if apiRes.Kind == kind { return ... } } }`): the continuation is reached
exactly when the echoed group-version matches and some entry's kind matches,
which is what this Boolean computes. -/
def capabilityFound (res : APIResourceList) (gv kind : String) : Bool :=
  res.GroupVersion == gv && res.APIResources.any (fun apiRes => apiRes.Kind == kind)

/-- Embeds `ServiceProfilesAccess` (authz.go lines 93-108): discovery probe
for the ServiceProfile group/version, then — only on a match — the
authorization query with group `"linkerd.io"`, empty version, resource
`"serviceprofiles"`. -/
def ServiceProfilesAccess (k8sClient : KubernetesInterface) :
    Except GoError Unit × List K8sCall :=
  let probe : K8sCall := .serverResourcesForGroupVersion ServiceProfileAPIVersion
  match k8sClient.serverResourcesForGroupVersion ServiceProfileAPIVersion with
  | .error err => (.error err, [probe])
  | .ok res =>
      if capabilityFound res ServiceProfileAPIVersion ServiceProfileKind then
        let inner := ResourceAuthz k8sClient "" "list" "linkerd.io" "" "serviceprofiles" ""
        (inner.1, probe :: inner.2)
      else
        (.error (.errorNew "ServiceProfile CRD not found"), [probe])

/-- Embeds `checkEndpointSlicesExist` (authz.go lines 130-141): list
EndpointSlices across all namespaces, propagate a transport error unchanged,
succeed on a non-empty item list, else fail with the no-instances error. -/
def checkEndpointSlicesExist (k8sClient : KubernetesInterface) :
    Except GoError Unit × List K8sCall :=
  let opts : ListOptions := {}
  match k8sClient.listEndpointSlices "" opts with
  | .error err => (.error err, [.listEndpointSlices "" opts])
  | .ok sliceList =>
      if sliceList.Items.length > 0 then
        (.ok (), [.listEndpointSlices "" opts])
      else
        (.error (.errorNew "no EndpointSlice resources exist in the cluster"),
         [.listEndpointSlices "" opts])

/-- Embeds `EndpointSliceAccess` (authz.go lines 112-128): discovery probe for
the discovery group/version, then — only on a kind match — the instance
existence check (no authorization query on this path). -/
def EndpointSliceAccess (k8sClient : KubernetesInterface) :
    Except GoError Unit × List K8sCall :=
  let gv := discoverySchemeGroupVersion
  let probe : K8sCall := .serverResourcesForGroupVersion gv
  match k8sClient.serverResourcesForGroupVersion gv with
  | .error err => (.error err, [probe])
  | .ok res =>
      if capabilityFound res gv "EndpointSlice" then
        let inner := checkEndpointSlicesExist k8sClient
        (inner.1, probe :: inner.2)
      else
        (.error (.errorNew "EndpointSlice resource not found"), [probe])

/-- Embeds `LinkAccess` (authz.go lines 145-160): discovery probe for the
Link group/version, then — only on a match — the authorization query with the
Link CRD's own group and version, resource `"links"`. -/
def LinkAccess (k8sClient : KubernetesInterface) :
    Except GoError Unit × List K8sCall :=
  let probe : K8sCall := .serverResourcesForGroupVersion LinkAPIGroupVersion
  match k8sClient.serverResourcesForGroupVersion LinkAPIGroupVersion with
  | .error err => (.error err, [probe])
  | .ok res =>
      if capabilityFound res LinkAPIGroupVersion LinkKind then
        let inner := ResourceAuthz k8sClient "" "list" LinkAPIGroup LinkAPIVersion "links" ""
        (inner.1, probe :: inner.2)
      else
        (.error (.errorNew "Link CRD not found"), [probe])

/-- Embeds `ClusterAccess` (authz.go lines 164-166): a single authorization
query, verb `list`, resource `pods`, everything else unscoped. -/
def ClusterAccess (k8sClient : KubernetesInterface) :
    Except GoError Unit × List K8sCall :=
  ResourceAuthz k8sClient "" "list" "" "" "pods" ""

/-- The capability-absent condition of the spec: the echoed group-version
differs from the probe, or no entry's kind equals the expected kind. -/
def capabilityAbsent (res : APIResourceList) (gv kind : String) : Prop :=
  res.GroupVersion ≠ gv ∨ ∀ r ∈ res.APIResources, r.Kind ≠ kind

instance (res : APIResourceList) (gv kind : String) :
    Decidable (capabilityAbsent res gv kind) := by
  unfold capabilityAbsent; infer_instance

/-- The resource attributes a recorded call submits to the authorization
subsystem, when the call is an access-review submission. -/
def K8sCall.submittedAttributes : K8sCall → Option ResourceAttributes
  | .createSelfSubjectAccessReview s => some s.Spec.ResourceAttributes
  | .createSubjectAccessReview s => some s.Spec.ResourceAttributes
  | _ => none

/-- The self-subject access review `ClusterAccess` submits: verb `list`,
resource `pods`, everything else unscoped. -/
def podListSSAR : SelfSubjectAccessReview :=
  selfSubjectAccessReview "" "list" "" "" "pods" ""

/-- A stub client whose four oracles give fixed replies, for concrete
evaluations of the checks. -/
def stubClient (ssarReply sarReply : Except GoError AccessReviewResult)
    (discReply : Except GoError APIResourceList)
    (sliceReply : Except GoError EndpointSliceList) : KubernetesInterface :=
  { createSelfSubjectAccessReview := fun _ => ssarReply
    createSubjectAccessReview := fun _ => sarReply
    serverResourcesForGroupVersion := fun _ => discReply
    listEndpointSlices := fun _ _ => sliceReply }

/-- An allowed verdict with no reason, as a client reply. -/
def allowedReply : Except GoError AccessReviewResult :=
  .ok { Status := { Allowed := true } }

/-- A client whose discovery echoes an unrelated group-version (the probed
capability is absent even though a same-named kind appears in the list). -/
def cWrongGV : KubernetesInterface :=
  stubClient allowedReply allowedReply
    (.ok { GroupVersion := "other.example" ++ "/" ++ "v1"
           APIResources := [{ Kind := ServiceProfileKind }] })
    (.ok { Items := [] })

/-- A client on which every external operation fails with the same transport
error. -/
def cTransportDown : KubernetesInterface :=
  stubClient (.error (.transport "network timeout"))
    (.error (.transport "network timeout"))
    (.error (.transport "network timeout"))
    (.error (.transport "network timeout"))

/-- A client whose discovery confirms the EndpointSlice kind but whose
instance listing is empty. -/
def cSlicesEmpty : KubernetesInterface :=
  stubClient allowedReply allowedReply
    (.ok { GroupVersion := discoverySchemeGroupVersion
           APIResources := [{ Kind := "EndpointSlice" }] })
    (.ok { Items := [] })

/-- A client whose discovery echoes the probed group-version and lists all
three probed kinds, whose access reviews are allowed, and whose instance
listing is non-empty. -/
def cFull : KubernetesInterface :=
  { createSelfSubjectAccessReview := fun _ => allowedReply
    createSubjectAccessReview := fun _ => allowedReply
    serverResourcesForGroupVersion := fun gv =>
      .ok { GroupVersion := gv
            APIResources := [{ Kind := ServiceProfileKind },
              { Kind := LinkKind }, { Kind := "EndpointSlice" }] }
    listEndpointSlices := fun _ _ => .ok { Items := [{ Name := "slice-1" }] } }

/-- `capabilityFound` is the Boolean complement of `capabilityAbsent`. -/
theorem capabilityFound_eq_false_iff (res : APIResourceList) (gv kind : String) :
    capabilityFound res gv kind = false ↔ capabilityAbsent res gv kind := by
  unfold capabilityFound capabilityAbsent
  simp only [Bool.and_eq_false_iff, beq_eq_false_iff_ne, ne_eq, List.any_eq_false,
    not_exists, not_and, beq_iff_eq]

/-- `capabilityFound` is true iff the group-version matches and some entry's
kind matches. -/
theorem capabilityFound_eq_true_iff (res : APIResourceList) (gv kind : String) :
    capabilityFound res gv kind = true ↔
      (res.GroupVersion = gv ∧ ∃ r ∈ res.APIResources, r.Kind = kind) := by
  unfold capabilityFound
  simp [List.any_eq_true]

/-- A string has length zero exactly when it is the empty string (the Go code
tests `len(status.Reason) > 0`; the spec speaks of a non-empty reason). -/
theorem string_length_eq_zero_iff (s : String) : s.length = 0 ↔ s = "" := by
  cases s with
  | mk data =>
      constructor
      · intro h
        have hd : data = [] := List.length_eq_zero.mp h
        rw [hd]
      · intro h
        rw [h]; rfl

/-- `ResourceAuthz` makes exactly one call — the self-subject access review —
whether or not the submission fails. -/
theorem ResourceAuthz_trace (c : KubernetesInterface)
    (ns verb group version resource name : String) :
    (ResourceAuthz c ns verb group version resource name).2 =
      [.createSelfSubjectAccessReview
        (selfSubjectAccessReview ns verb group version resource name)] := by
  simp only [ResourceAuthz]
  cases hx : c.createSelfSubjectAccessReview
      (selfSubjectAccessReview ns verb group version resource name) with
  | error e => simp
  | ok r => simp

/-- `checkEndpointSlicesExist` makes exactly one call — the cluster-wide
EndpointSlice listing — whatever its outcome. -/
theorem checkEndpointSlicesExist_trace (c : KubernetesInterface) :
    (checkEndpointSlicesExist c).2 = [.listEndpointSlices "" {}] := by
  simp only [checkEndpointSlicesExist]
  cases hx : c.listEndpointSlices "" {} with
  | error e => simp
  | ok l =>
      simp only []
      split <;> rfl

/-- The profile check's trace is either the lone discovery probe, or the probe
followed by the self-subject authorization query. -/
theorem ServiceProfilesAccess_trace_shape (c : KubernetesInterface) :
    (ServiceProfilesAccess c).2 =
      [.serverResourcesForGroupVersion ServiceProfileAPIVersion] ∨
    (ServiceProfilesAccess c).2 =
      [.serverResourcesForGroupVersion ServiceProfileAPIVersion,
       .createSelfSubjectAccessReview
         (selfSubjectAccessReview "" "list" "linkerd.io" "" "serviceprofiles" "")] := by
  cases hx : c.serverResourcesForGroupVersion ServiceProfileAPIVersion with
  | error e => simp [ServiceProfilesAccess, hx]
  | ok res =>
      cases hf : capabilityFound res ServiceProfileAPIVersion ServiceProfileKind with
      | false => simp [ServiceProfilesAccess, hx, hf]
      | true => simp [ServiceProfilesAccess, hx, hf, ResourceAuthz_trace]

/-- The link check's trace is either the lone discovery probe, or the probe
followed by the self-subject authorization query. -/
theorem LinkAccess_trace_shape (c : KubernetesInterface) :
    (LinkAccess c).2 = [.serverResourcesForGroupVersion LinkAPIGroupVersion] ∨
    (LinkAccess c).2 =
      [.serverResourcesForGroupVersion LinkAPIGroupVersion,
       .createSelfSubjectAccessReview
         (selfSubjectAccessReview "" "list" LinkAPIGroup LinkAPIVersion "links" "")] := by
  cases hx : c.serverResourcesForGroupVersion LinkAPIGroupVersion with
  | error e => simp [LinkAccess, hx]
  | ok res =>
      cases hf : capabilityFound res LinkAPIGroupVersion LinkKind with
      | false => simp [LinkAccess, hx, hf]
      | true => simp [LinkAccess, hx, hf, ResourceAuthz_trace]

/-- The endpoint-collection check's trace is either the lone discovery probe,
or the probe followed by the instance listing. -/
theorem EndpointSliceAccess_trace_shape (c : KubernetesInterface) :
    (EndpointSliceAccess c).2 =
      [.serverResourcesForGroupVersion discoverySchemeGroupVersion] ∨
    (EndpointSliceAccess c).2 =
      [.serverResourcesForGroupVersion discoverySchemeGroupVersion,
       .listEndpointSlices "" {}] := by
  cases hx : c.serverResourcesForGroupVersion discoverySchemeGroupVersion with
  | error e => simp [EndpointSliceAccess, hx]
  | ok res =>
      cases hf : capabilityFound res discoverySchemeGroupVersion "EndpointSlice" with
      | false => simp [EndpointSliceAccess, hx, hf]
      | true => simp [EndpointSliceAccess, hx, hf, checkEndpointSlicesExist_trace]

/-- C5: for every verdict with `allowed = true`, the evaluator returns
success, whatever the content of the reason string. -/
theorem C5_evaluate_allowed_succeeds (group resource reason : String) :
    evaluateAccessReviewStatus group resource { Allowed := true, Reason := reason } =
      .ok () := rfl

/-- C2: for every verdict with `allowed = false`, the evaluator fails with
message `"not authorized to access " ++ id ++ ": " ++ reason` when the reason
is non-empty and `"not authorized to access " ++ id` (no trailing colon or
reason fragment) when it is empty, where the identifier `id` is the fixed
deterministic rendering `GroupKind.render` of the group and resource. -/
theorem C2_denied_message (group resource : String)
    (status : SubjectAccessReviewStatus) (h : status.Allowed = false) :
    (status.Reason ≠ "" →
      evaluateAccessReviewStatus group resource status =
        .error (.errorNew ("not authorized to access " ++
          GroupKind.render { Group := group, Kind := resource } ++ ": " ++
          status.Reason))) ∧
    (status.Reason = "" →
      evaluateAccessReviewStatus group resource status =
        .error (.errorNew ("not authorized to access " ++
          GroupKind.render { Group := group, Kind := resource }))) := by
  unfold evaluateAccessReviewStatus
  rw [h]
  by_cases hlen : status.Reason.length > 0
  · have hne : status.Reason ≠ "" := by
      intro he
      rw [he] at hlen
      exact absurd rfl (Nat.ne_of_gt hlen)
    simp [hlen, hne]
  · have heq : status.Reason = "" :=
      (string_length_eq_zero_iff status.Reason).mp (Nat.eq_zero_of_not_pos hlen)
    simp [hlen, heq]

/-- C2 witness: a concrete denied verdict with a non-empty reason. -/
theorem C2_denied_message_witness :
    evaluateAccessReviewStatus "apps" "deployments"
        { Allowed := false, Reason := "user cannot list resource" } =
      .error (.errorNew "not authorized to access deployments.apps: user cannot list resource") :=
  (C2_denied_message "apps" "deployments"
      { Allowed := false, Reason := "user cannot list resource" } rfl).1
    (by decide)

/-- C4: `checkEndpointSlicesExist` succeeds iff the listing returned at least
one element; on an empty listing it fails with the no-instances error; a
transport error from the listing is returned unchanged (and is the only call
made). -/
theorem C4_check_instances_exist (c : KubernetesInterface) :
    (∀ e, c.listEndpointSlices "" {} = .error e →
      checkEndpointSlicesExist c = (.error e, [.listEndpointSlices "" {}])) ∧
    (∀ l, c.listEndpointSlices "" {} = .ok l →
      (((checkEndpointSlicesExist c).1 = .ok ()) ↔ 1 ≤ l.Items.length) ∧
      (l.Items.length = 0 →
        (checkEndpointSlicesExist c).1 =
          .error (.errorNew "no EndpointSlice resources exist in the cluster"))) := by
  constructor
  · intro e he
    simp only [checkEndpointSlicesExist, he]
  · intro l hl
    simp only [checkEndpointSlicesExist, hl]
    constructor
    · by_cases hn : l.Items.length > 0
      · rw [if_pos hn]
        exact ⟨fun _ => hn, fun _ => rfl⟩
      · rw [if_neg hn]
        constructor
        · intro hok
          simp at hok
        · intro hle
          exact absurd hle hn
    · intro h0
      rw [if_neg (by omega)]

/-- C1: for each discovery-probing check (profile, link, endpoint-collection),
when discovery returns a list, the check fails with the not-found error —
whose message names the expected kind — whenever the echoed group-version
differs from the probe or no entry's kind matches; otherwise the check's
continuation runs and its result is returned unchanged (the authorization
query for profile and link, the instance-existence check for
endpoint-collection). -/
theorem C1_capability_gate (c : KubernetesInterface)
    (resSP resES resLink : APIResourceList)
    (hSP : c.serverResourcesForGroupVersion ServiceProfileAPIVersion = .ok resSP)
    (hES : c.serverResourcesForGroupVersion discoverySchemeGroupVersion = .ok resES)
    (hLink : c.serverResourcesForGroupVersion LinkAPIGroupVersion = .ok resLink) :
    ((capabilityAbsent resSP ServiceProfileAPIVersion ServiceProfileKind →
        (ServiceProfilesAccess c).1 =
          .error (.errorNew (ServiceProfileKind ++ " CRD not found"))) ∧
      (¬ capabilityAbsent resSP ServiceProfileAPIVersion ServiceProfileKind →
        (ServiceProfilesAccess c).1 =
          (ResourceAuthz c "" "list" "linkerd.io" "" "serviceprofiles" "").1)) ∧
    ((capabilityAbsent resES discoverySchemeGroupVersion "EndpointSlice" →
        (EndpointSliceAccess c).1 =
          .error (.errorNew ("EndpointSlice" ++ " resource not found"))) ∧
      (¬ capabilityAbsent resES discoverySchemeGroupVersion "EndpointSlice" →
        (EndpointSliceAccess c).1 = (checkEndpointSlicesExist c).1)) ∧
    ((capabilityAbsent resLink LinkAPIGroupVersion LinkKind →
        (LinkAccess c).1 = .error (.errorNew (LinkKind ++ " CRD not found"))) ∧
      (¬ capabilityAbsent resLink LinkAPIGroupVersion LinkKind →
        (LinkAccess c).1 =
          (ResourceAuthz c "" "list" LinkAPIGroup LinkAPIVersion "links" "").1)) := by
  refine ⟨⟨?_, ?_⟩, ⟨?_, ?_⟩, ⟨?_, ?_⟩⟩
  · intro habs
    have hf := (capabilityFound_eq_false_iff resSP ServiceProfileAPIVersion
      ServiceProfileKind).mpr habs
    simp [ServiceProfilesAccess, hSP, hf]
    rfl
  · intro hpres
    have hf : capabilityFound resSP ServiceProfileAPIVersion ServiceProfileKind = true := by
      cases hb : capabilityFound resSP ServiceProfileAPIVersion ServiceProfileKind with
      | false => exact absurd ((capabilityFound_eq_false_iff _ _ _).mp hb) hpres
      | true => rfl
    simp [ServiceProfilesAccess, hSP, hf]
  · intro habs
    have hf := (capabilityFound_eq_false_iff resES discoverySchemeGroupVersion
      "EndpointSlice").mpr habs
    simp [EndpointSliceAccess, hES, hf]
  · intro hpres
    have hf : capabilityFound resES discoverySchemeGroupVersion "EndpointSlice" = true := by
      cases hb : capabilityFound resES discoverySchemeGroupVersion "EndpointSlice" with
      | false => exact absurd ((capabilityFound_eq_false_iff _ _ _).mp hb) hpres
      | true => rfl
    simp [EndpointSliceAccess, hES, hf]
  · intro habs
    have hf := (capabilityFound_eq_false_iff resLink LinkAPIGroupVersion LinkKind).mpr habs
    simp [LinkAccess, hLink, hf]
    rfl
  · intro hpres
    have hf : capabilityFound resLink LinkAPIGroupVersion LinkKind = true := by
      cases hb : capabilityFound resLink LinkAPIGroupVersion LinkKind with
      | false => exact absurd ((capabilityFound_eq_false_iff _ _ _).mp hb) hpres
      | true => rfl
    simp [LinkAccess, hLink, hf]

/-- C1 witness: on a client whose discovery echoes an unrelated group-version
(while still listing a same-named kind), the profile check reports the
ServiceProfile not-found error. -/
theorem C1_capability_gate_witness :
    (ServiceProfilesAccess cWrongGV).1 =
      .error (.errorNew (ServiceProfileKind ++ " CRD not found")) :=
  (C1_capability_gate cWrongGV _ _ _ rfl rfl rfl).1.1 (by decide)

/-- C4 witness: a client whose listing returns an empty EndpointSlice list. -/
theorem C4_check_instances_exist_witness :
    (checkEndpointSlicesExist
        (stubClient (.ok { Status := { Allowed := true } })
          (.ok { Status := { Allowed := true } })
          (.error (.transport "unused")) (.ok { Items := [] }))).1 =
      .error (.errorNew "no EndpointSlice resources exist in the cluster") :=
  ((C4_check_instances_exist _).2 { Items := [] } rfl).2 rfl

/-- C3: discovery strictly precedes authorization in the profile and link
checks: the first recorded call is always the discovery probe, an
access-review call appears in the trace only when discovery succeeded and
confirmed the capability, and when the capability is absent the check returns
the not-found error with no access-review call made (never a not-authorized
error). -/
theorem C3_discovery_precedes_authz (c : KubernetesInterface) :
    ((ServiceProfilesAccess c).2.head? =
        some (.serverResourcesForGroupVersion ServiceProfileAPIVersion) ∧
      (∀ call ∈ (ServiceProfilesAccess c).2, call.isAccessReview = true →
        ∃ res, c.serverResourcesForGroupVersion ServiceProfileAPIVersion = .ok res ∧
          ¬ capabilityAbsent res ServiceProfileAPIVersion ServiceProfileKind) ∧
      (∀ res, c.serverResourcesForGroupVersion ServiceProfileAPIVersion = .ok res →
        capabilityAbsent res ServiceProfileAPIVersion ServiceProfileKind →
          (ServiceProfilesAccess c).1 =
            .error (.errorNew "ServiceProfile CRD not found") ∧
          ∀ call ∈ (ServiceProfilesAccess c).2, call.isAccessReview = false)) ∧
    ((LinkAccess c).2.head? =
        some (.serverResourcesForGroupVersion LinkAPIGroupVersion) ∧
      (∀ call ∈ (LinkAccess c).2, call.isAccessReview = true →
        ∃ res, c.serverResourcesForGroupVersion LinkAPIGroupVersion = .ok res ∧
          ¬ capabilityAbsent res LinkAPIGroupVersion LinkKind) ∧
      (∀ res, c.serverResourcesForGroupVersion LinkAPIGroupVersion = .ok res →
        capabilityAbsent res LinkAPIGroupVersion LinkKind →
          (LinkAccess c).1 = .error (.errorNew "Link CRD not found") ∧
          ∀ call ∈ (LinkAccess c).2, call.isAccessReview = false)) := by
  constructor
  · cases hd : c.serverResourcesForGroupVersion ServiceProfileAPIVersion with
    | error e =>
        refine ⟨?_, ?_, ?_⟩
        · simp [ServiceProfilesAccess, hd]
        · intro call hm
          simp [ServiceProfilesAccess, hd] at hm
          subst hm
          intro hrev
          simp [K8sCall.isAccessReview] at hrev
        · intro res hres
          simp at hres
    | ok res0 =>
        cases hf : capabilityFound res0 ServiceProfileAPIVersion ServiceProfileKind with
        | false =>
            refine ⟨?_, ?_, ?_⟩
            · simp [ServiceProfilesAccess, hd, hf]
            · intro call hm
              simp [ServiceProfilesAccess, hd, hf] at hm
              subst hm
              intro hrev
              simp [K8sCall.isAccessReview] at hrev
            · intro res hres habs
              refine ⟨by simp [ServiceProfilesAccess, hd, hf], ?_⟩
              intro call hm
              simp [ServiceProfilesAccess, hd, hf] at hm
              subst hm
              simp [K8sCall.isAccessReview]
        | true =>
            refine ⟨?_, ?_, ?_⟩
            · simp [ServiceProfilesAccess, hd, hf]
            · intro call hm hrev
              refine ⟨res0, rfl, ?_⟩
              intro habs
              rw [(capabilityFound_eq_false_iff _ _ _).mpr habs] at hf
              simp at hf
            · intro res hres habs
              injection hres with hres
              subst hres
              rw [(capabilityFound_eq_false_iff _ _ _).mpr habs] at hf
              simp at hf
  · cases hd : c.serverResourcesForGroupVersion LinkAPIGroupVersion with
    | error e =>
        refine ⟨?_, ?_, ?_⟩
        · simp [LinkAccess, hd]
        · intro call hm
          simp [LinkAccess, hd] at hm
          subst hm
          intro hrev
          simp [K8sCall.isAccessReview] at hrev
        · intro res hres
          simp at hres
    | ok res0 =>
        cases hf : capabilityFound res0 LinkAPIGroupVersion LinkKind with
        | false =>
            refine ⟨?_, ?_, ?_⟩
            · simp [LinkAccess, hd, hf]
            · intro call hm
              simp [LinkAccess, hd, hf] at hm
              subst hm
              intro hrev
              simp [K8sCall.isAccessReview] at hrev
            · intro res hres habs
              refine ⟨by simp [LinkAccess, hd, hf], ?_⟩
              intro call hm
              simp [LinkAccess, hd, hf] at hm
              subst hm
              simp [K8sCall.isAccessReview]
        | true =>
            refine ⟨?_, ?_, ?_⟩
            · simp [LinkAccess, hd, hf]
            · intro call hm hrev
              refine ⟨res0, rfl, ?_⟩
              intro habs
              rw [(capabilityFound_eq_false_iff _ _ _).mpr habs] at hf
              simp at hf
            · intro res hres habs
              injection hres with hres
              subst hres
              rw [(capabilityFound_eq_false_iff _ _ _).mpr habs] at hf
              simp at hf

/-- C3 witness: on the client whose discovery echoes an unrelated
group-version, the link check reports the Link not-found error. -/
theorem C3_discovery_precedes_authz_witness :
    (LinkAccess cWrongGV).1 = .error (.errorNew "Link CRD not found") :=
  ((C3_discovery_precedes_authz cWrongGV).2.2.2 _ rfl (by decide)).1

/-- C6: the cluster-wide pod check performs no discovery call: its trace is
exactly one self-subject access review whose attributes are verb `list`,
resource `pods`, empty group, empty version and empty namespace, and an
allowed verdict makes the check succeed. -/
theorem C6_cluster_access_shape (c : KubernetesInterface) :
    (ClusterAccess c).2 = [.createSelfSubjectAccessReview podListSSAR] ∧
    podListSSAR.Spec.ResourceAttributes =
      { Namespace := "", Verb := "list", Group := "", Version := "",
        Resource := "pods", Subresource := "", Name := "" } ∧
    (∀ call ∈ (ClusterAccess c).2, call.isDiscovery = false) ∧
    (∀ result, c.createSelfSubjectAccessReview podListSSAR = .ok result →
      result.Status.Allowed = true → (ClusterAccess c).1 = .ok ()) := by
  refine ⟨ResourceAuthz_trace c "" "list" "" "" "pods" "", rfl, ?_, ?_⟩
  · intro call hm
    rw [show (ClusterAccess c).2 = [.createSelfSubjectAccessReview podListSSAR] from
      ResourceAuthz_trace c "" "list" "" "" "pods" ""] at hm
    simp at hm
    subst hm
    simp [K8sCall.isDiscovery]
  · intro result hok hal
    simp only [ClusterAccess, ResourceAuthz]
    rw [show selfSubjectAccessReview "" "list" "" "" "pods" "" = podListSSAR from rfl, hok]
    simp [evaluateAccessReviewStatus, hal]

/-- C6 witness: a client that allows the pod query makes the check succeed. -/
theorem C6_cluster_access_shape_witness : (ClusterAccess cFull).1 = .ok () :=
  (C6_cluster_access_shape cFull).2.2.2 _ rfl rfl

/-- C7: the endpoint-collection check never issues an authorization query
(on any client, no trace entry is an access review); once discovery confirms
the EndpointSlice kind, it succeeds exactly when the cluster-wide listing has
at least one element and otherwise fails with the no-instances error. -/
theorem C7_endpointslice_no_authz (c : KubernetesInterface) :
    (∀ call ∈ (EndpointSliceAccess c).2, call.isAccessReview = false) ∧
    (∀ res, c.serverResourcesForGroupVersion discoverySchemeGroupVersion = .ok res →
      ¬ capabilityAbsent res discoverySchemeGroupVersion "EndpointSlice" →
      ∀ l, c.listEndpointSlices "" {} = .ok l →
        (l.Items ≠ [] → (EndpointSliceAccess c).1 = .ok ()) ∧
        (l.Items = [] → (EndpointSliceAccess c).1 =
          .error (.errorNew "no EndpointSlice resources exist in the cluster"))) := by
  constructor
  · intro call hm
    rcases EndpointSliceAccess_trace_shape c with hsh | hsh <;>
      rw [hsh] at hm <;> simp at hm
    · subst hm; simp [K8sCall.isAccessReview]
    · rcases hm with hm | hm <;> subst hm <;> simp [K8sCall.isAccessReview]
  · intro res hd hpres l hl
    have hf : capabilityFound res discoverySchemeGroupVersion "EndpointSlice" = true := by
      cases hb : capabilityFound res discoverySchemeGroupVersion "EndpointSlice" with
      | false => exact absurd ((capabilityFound_eq_false_iff _ _ _).mp hb) hpres
      | true => rfl
    have hmain : (EndpointSliceAccess c).1 = (checkEndpointSlicesExist c).1 := by
      simp [EndpointSliceAccess, hd, hf]
    constructor
    · intro hne
      rw [hmain]
      have hlen : l.Items.length > 0 := List.length_pos.mpr hne
      simp [checkEndpointSlicesExist, hl, hlen]
    · intro hnil
      rw [hmain]
      simp [checkEndpointSlicesExist, hl, hnil]

/-- C7 witness: discovery confirms the kind but the listing is empty, so the
check fails with the no-instances error. -/
theorem C7_endpointslice_no_authz_witness :
    (EndpointSliceAccess cSlicesEmpty).1 =
      .error (.errorNew "no EndpointSlice resources exist in the cluster") :=
  ((C7_endpointslice_no_authz cSlicesEmpty).2 _ rfl (by decide) _ rfl).2 rfl

/-- When the capability is not absent, the discovery-match computation is
true. -/
theorem capabilityFound_of_not_absent (res : APIResourceList) (gv kind : String)
    (h : ¬ capabilityAbsent res gv kind) : capabilityFound res gv kind = true := by
  cases hb : capabilityFound res gv kind with
  | false => exact absurd ((capabilityFound_eq_false_iff _ _ _).mp hb) h
  | true => rfl

/-- C8: every transport error — from a discovery query, an access-review
submission, or the instance listing — is returned unchanged as the check's
result, and the failing call is the last (and here only) call made: no retry,
no wrapping, no reinterpretation. -/
theorem C8_transport_errors_propagated (c : KubernetesInterface) (e : GoError) :
    (c.serverResourcesForGroupVersion ServiceProfileAPIVersion = .error e →
      ServiceProfilesAccess c =
        (.error e, [.serverResourcesForGroupVersion ServiceProfileAPIVersion])) ∧
    (c.serverResourcesForGroupVersion discoverySchemeGroupVersion = .error e →
      EndpointSliceAccess c =
        (.error e, [.serverResourcesForGroupVersion discoverySchemeGroupVersion])) ∧
    (c.serverResourcesForGroupVersion LinkAPIGroupVersion = .error e →
      LinkAccess c =
        (.error e, [.serverResourcesForGroupVersion LinkAPIGroupVersion])) ∧
    (∀ ns verb group version resource name,
      c.createSelfSubjectAccessReview
          (selfSubjectAccessReview ns verb group version resource name) = .error e →
        ResourceAuthz c ns verb group version resource name =
          (.error e, [.createSelfSubjectAccessReview
            (selfSubjectAccessReview ns verb group version resource name)])) ∧
    (∀ ns verb group version resource subresource name user userGroups,
      c.createSubjectAccessReview (subjectAccessReview ns verb group version
          resource subresource name user userGroups) = .error e →
        ResourceAuthzForUser c ns verb group version resource subresource name
            user userGroups =
          (.error e, [.createSubjectAccessReview (subjectAccessReview ns verb
            group version resource subresource name user userGroups)])) ∧
    (c.listEndpointSlices "" {} = .error e →
      checkEndpointSlicesExist c = (.error e, [.listEndpointSlices "" {}])) := by
  refine ⟨?_, ?_, ?_, ?_, ?_, ?_⟩
  · intro h
    simp [ServiceProfilesAccess, h]
  · intro h
    simp [EndpointSliceAccess, h]
  · intro h
    simp [LinkAccess, h]
  · intro ns verb group version resource name h
    simp [ResourceAuthz, h]
  · intro ns verb group version resource subresource name user userGroups h
    simp [ResourceAuthzForUser, h]
  · intro h
    simp [checkEndpointSlicesExist, h]

/-- C8 witness: a client whose discovery fails with a transport error makes
the profile check return exactly that error after one call. -/
theorem C8_transport_errors_propagated_witness :
    ServiceProfilesAccess cTransportDown =
      (.error (.transport "network timeout"),
       [.serverResourcesForGroupVersion ServiceProfileAPIVersion]) :=
  (C8_transport_errors_propagated cTransportDown (.transport "network timeout")).1 rfl

/-- C9: when the profile check reaches its authorization query, that query
carries group `"linkerd.io"` and an empty version string, even though the
discovery probe targeted the full version-bearing ServiceProfile
group/version; the link check's query instead carries the Link CRD's own
group and non-empty version, the pair its probe's group/version is built
from. -/
theorem C9_version_scoping (c : KubernetesInterface)
    (resSP resLink : APIResourceList)
    (hSP : c.serverResourcesForGroupVersion ServiceProfileAPIVersion = .ok resSP)
    (hfSP : ¬ capabilityAbsent resSP ServiceProfileAPIVersion ServiceProfileKind)
    (hL : c.serverResourcesForGroupVersion LinkAPIGroupVersion = .ok resLink)
    (hfL : ¬ capabilityAbsent resLink LinkAPIGroupVersion LinkKind) :
    (ServiceProfilesAccess c).2 =
      [.serverResourcesForGroupVersion ServiceProfileAPIVersion,
       .createSelfSubjectAccessReview
         (selfSubjectAccessReview "" "list" "linkerd.io" "" "serviceprofiles" "")] ∧
    (selfSubjectAccessReview "" "list" "linkerd.io" ""
        "serviceprofiles" "").Spec.ResourceAttributes.Version = "" ∧
    ServiceProfileAPIVersion = "linkerd.io" ++ "/" ++ "v1alpha2" ∧
    (LinkAccess c).2 =
      [.serverResourcesForGroupVersion LinkAPIGroupVersion,
       .createSelfSubjectAccessReview
         (selfSubjectAccessReview "" "list" LinkAPIGroup LinkAPIVersion "links" "")] ∧
    (selfSubjectAccessReview "" "list" LinkAPIGroup LinkAPIVersion
        "links" "").Spec.ResourceAttributes.Group = LinkAPIGroup ∧
    (selfSubjectAccessReview "" "list" LinkAPIGroup LinkAPIVersion
        "links" "").Spec.ResourceAttributes.Version = LinkAPIVersion ∧
    LinkAPIVersion ≠ "" ∧
    LinkAPIGroupVersion = LinkAPIGroup ++ "/" ++ LinkAPIVersion := by
  refine ⟨?_, rfl, rfl, ?_, rfl, rfl, by decide, rfl⟩
  · simp [ServiceProfilesAccess, hSP,
      capabilityFound_of_not_absent resSP ServiceProfileAPIVersion ServiceProfileKind hfSP,
      ResourceAuthz_trace]
  · simp [LinkAccess, hL,
      capabilityFound_of_not_absent resLink LinkAPIGroupVersion LinkKind hfL,
      ResourceAuthz_trace]

/-- C9 witness: a client that confirms both CRDs; the profile check's trace is
the probe followed by the version-unscoped query. -/
theorem C9_version_scoping_witness :
    (ServiceProfilesAccess cFull).2 =
      [.serverResourcesForGroupVersion ServiceProfileAPIVersion,
       .createSelfSubjectAccessReview
         (selfSubjectAccessReview "" "list" "linkerd.io" "" "serviceprofiles" "")] :=
  (C9_version_scoping cFull _ _ rfl (by decide) rfl (by decide)).1

/-- C10: the self-subject builder never sets a subresource (it is always the
empty string), only the on-behalf-of builder copies one, and hence every
access-review call recorded by any of the four public checks has empty
subresource attributes. -/
theorem C10_no_subresource (c : KubernetesInterface) :
    (∀ ns verb group version resource name,
      (selfSubjectAccessReview ns verb group version resource
        name).Spec.ResourceAttributes.Subresource = "") ∧
    (∀ ns verb group version resource subresource name user userGroups,
      (subjectAccessReview ns verb group version resource subresource name user
        userGroups).Spec.ResourceAttributes.Subresource = subresource) ∧
    (∀ call ∈ (ServiceProfilesAccess c).2, ∀ attrs,
      call.submittedAttributes = some attrs → attrs.Subresource = "") ∧
    (∀ call ∈ (EndpointSliceAccess c).2, ∀ attrs,
      call.submittedAttributes = some attrs → attrs.Subresource = "") ∧
    (∀ call ∈ (LinkAccess c).2, ∀ attrs,
      call.submittedAttributes = some attrs → attrs.Subresource = "") ∧
    (∀ call ∈ (ClusterAccess c).2, ∀ attrs,
      call.submittedAttributes = some attrs → attrs.Subresource = "") := by
  refine ⟨fun _ _ _ _ _ _ => rfl, fun _ _ _ _ _ _ _ _ _ => rfl, ?_, ?_, ?_, ?_⟩
  · intro call hm attrs ha
    rcases ServiceProfilesAccess_trace_shape c with hsh | hsh <;>
      rw [hsh] at hm <;> simp at hm
    · subst hm
      simp [K8sCall.submittedAttributes] at ha
    · rcases hm with hm | hm <;> subst hm
      · simp [K8sCall.submittedAttributes] at ha
      · simp only [K8sCall.submittedAttributes, Option.some.injEq] at ha
        subst ha
        rfl
  · intro call hm attrs ha
    rcases EndpointSliceAccess_trace_shape c with hsh | hsh <;>
      rw [hsh] at hm <;> simp at hm
    · subst hm
      simp [K8sCall.submittedAttributes] at ha
    · rcases hm with hm | hm <;> subst hm <;>
        simp [K8sCall.submittedAttributes] at ha
  · intro call hm attrs ha
    rcases LinkAccess_trace_shape c with hsh | hsh <;>
      rw [hsh] at hm <;> simp at hm
    · subst hm
      simp [K8sCall.submittedAttributes] at ha
    · rcases hm with hm | hm <;> subst hm
      · simp [K8sCall.submittedAttributes] at ha
      · simp only [K8sCall.submittedAttributes, Option.some.injEq] at ha
        subst ha
        rfl
  · intro call hm attrs ha
    have ht : (ClusterAccess c).2 = [.createSelfSubjectAccessReview podListSSAR] :=
      ResourceAuthz_trace c "" "list" "" "" "pods" ""
    rw [ht] at hm
    simp at hm
    subst hm
    simp only [K8sCall.submittedAttributes, Option.some.injEq] at ha
    subst ha
    rfl

/-- C10 witness: the on-behalf-of builder copies a concrete subresource, as
the self-subject path never does. -/
theorem C10_no_subresource_witness :
    (subjectAccessReview "" "get" "apps" "v1" "deployments" "status" ""
      "alice" ["dev"]).Spec.ResourceAttributes.Subresource = "status" :=
  (C10_no_subresource cFull).2.1 "" "get" "apps" "v1" "deployments" "status" ""
    "alice" ["dev"]

end Authz
